import Mathlib

/-!
Verification of the Vision-Match image-similarity core.

This file gives a shallow embedding of the feature-extraction,
similarity-scoring and ranking pipeline of the repository and proves
properties of it.  Machine floating-point arithmetic is modelled by exact
real arithmetic on `ℝ`; raw 8-bit pixel samples are modelled as natural
numbers.  Each definition mirrors one function of the source.
-/

namespace VisionMatch

/-- Model of `Math.max(0, Math.min(1, x))`, the clamp applied to the
combined similarity score. -/
noncomputable def clamp01 (x : ℝ) : ℝ := max 0 (min 1 x)

/-- The dot product accumulated by the loop of `calculateCosineSimilarity`.
The caller guarantees both vectors have the same length. -/
noncomputable def dotProduct (a b : List ℝ) : ℝ := (List.zipWith (fun x y => x * y) a b).sum

/-- The squared norm (`norm1` / `norm2`) accumulated by the loop of
`calculateCosineSimilarity`. -/
noncomputable def normSq (a : List ℝ) : ℝ := (a.map fun x => x * x).sum

/-- Model of `calculateCosineSimilarity`: `dot/(sqrt(norm1)*sqrt(norm2))`,
returning 0 when either norm is 0. -/
noncomputable def calculateCosineSimilarity (features1 features2 : List ℝ) : ℝ :=
  if normSq features1 = 0 ∨ normSq features2 = 0 then 0
  else dotProduct features1 features2
    / (Real.sqrt (normSq features1) * Real.sqrt (normSq features2))

/-- `squaredSum` accumulated by the loop of `calculateEuclideanSimilarity`. -/
noncomputable def squaredDiffSum (a b : List ℝ) : ℝ :=
  (List.zipWith (fun x y => (x - y) ^ 2) a b).sum

/-- Model of `calculateEuclideanSimilarity`: `1/(1 + distance)`. -/
noncomputable def calculateEuclideanSimilarity (features1 features2 : List ℝ) : ℝ :=
  1 / (1 + Real.sqrt (squaredDiffSum features1 features2))

/-- `sum1Sq` / `sum2Sq` of `calculateCorrelationSimilarity`: the summed
squared deviations of a vector from a given mean. -/
noncomputable def devSq (a : List ℝ) (m : ℝ) : ℝ := (a.map fun x => (x - m) ^ 2).sum

/-- Model of `calculateCorrelationSimilarity`: the absolute Pearson
correlation, 0 when the denominator is 0.  As in the source, `n` is the
length of the first vector. -/
noncomputable def calculateCorrelationSimilarity (features1 features2 : List ℝ) : ℝ :=
  let n : ℝ := features1.length
  let mean1 := features1.sum / n
  let mean2 := features2.sum / n
  let numerator := (List.zipWith (fun x y => (x - mean1) * (y - mean2)) features1 features2).sum
  let denominator := Real.sqrt (devSq features1 mean1 * devSq features2 mean2)
  if denominator = 0 then 0 else |numerator / denominator|

/-- Model of `calculateAdvancedSimilarity`.  An absent (`null`/`undefined`,
hence falsy) argument is modelled by `none`; a JS array — including the
empty array, which is truthy — is modelled by `some`.  The guard returns 0
for an absent argument or mismatched lengths. -/
noncomputable def calculateAdvancedSimilarity : Option (List ℝ) → Option (List ℝ) → ℝ
  | some features1, some features2 =>
    if features1.length = features2.length then
      clamp01 (calculateCosineSimilarity features1 features2 * 0.5
        + calculateEuclideanSimilarity features1 features2 * 0.3
        + calculateCorrelationSimilarity features1 features2 * 0.2)
    else 0
  | _, _ => 0

/-! ### Feature extraction pipeline

Each sub-extractor first asks the external `sharp` library for a resampled
buffer; that call can fail, which the source catches, substituting a fixed
zero vector.  We model the outcome of the external call as an
`Except String` input.  RGB buffers are modelled as lists of channel
triples, grayscale buffers as lists of intensities. -/

/-- Truncation toward zero, as used by the JS `%` remainder operator. -/
noncomputable def jsTrunc (x : ℝ) : ℤ := if 0 ≤ x then ⌊x⌋ else ⌈x⌉

/-- The JS `%` operator on numbers: remainder with the sign of the
dividend. -/
noncomputable def jsMod (x y : ℝ) : ℝ := x - y * (jsTrunc (x / y) : ℝ)

/-- Model of `rgbToHsv` (inputs already normalised to `[0,1]`). -/
noncomputable def rgbToHsv (r g b : ℝ) : ℝ × ℝ × ℝ :=
  let mx := max r (max g b)
  let mn := min r (min g b)
  let diff := mx - mn
  let h0 : ℝ :=
    if diff = 0 then 0
    else if mx = r then jsMod ((g - b) / diff) 6
    else if mx = g then (b - r) / diff + 2
    else (r - g) / diff + 4
  let h1 := h0 / 6
  let h := if h1 < 0 then h1 + 1 else h1
  let s := if mx = 0 then 0 else diff / mx
  (h, s, mx)

/-- `histogram[index]++` on a list-modelled histogram (`List.set` keeps the
length unchanged, as does a JS in-range indexed write). -/
noncomputable def bumpAt (hist : List ℝ) (i : ℕ) : List ℝ := hist.set i (hist.getD i 0 + 1)

/-- The HSV bin index of `extractColorHistogram`
(16 × 8 × 8 bins, each coordinate clamped to its top bin). -/
noncomputable def histIndex (hsv : ℝ × ℝ × ℝ) : ℕ :=
  let hBin := min (Int.toNat ⌊hsv.1 * 16⌋) 15
  let sBin := min (Int.toNat ⌊hsv.2.1 * 8⌋) 7
  let vBin := min (Int.toNat ⌊hsv.2.2 * 8⌋) 7
  hBin * 8 * 8 + sBin * 8 + vBin

/-- Model of `extractColorHistogram`: HSV histogram of the sampled pixels,
normalised by the pixel count; a failed resample yields 1024 zeros. -/
noncomputable def extractColorHistogram : Except String (List (ℕ × ℕ × ℕ)) → List ℝ
  | Except.error _ => List.replicate 1024 0
  | Except.ok sample =>
    let pixels := sample.map (fun p : ℕ × ℕ × ℕ => rgbToHsv ((p.1 : ℝ) / 255) ((p.2.1 : ℝ) / 255) ((p.2.2 : ℝ) / 255))
    let histogram := pixels.foldl (fun hist hsv => bumpAt hist (histIndex hsv)) (List.replicate 1024 0)
    histogram.map fun count => count / (pixels.length : ℝ)

/-- Reading intensity `(x, y)` of a row-major grayscale buffer of width
`w` (out-of-range reads only arise on malformed buffers). -/
noncomputable def px (gray : List ℕ) (w x y : ℕ) : ℝ := (gray.getD (y * w + x) 0 : ℕ)

/-- Sobel gradient magnitude at an interior pixel of the 64×64 grayscale
buffer, with the two kernels of the source unrolled. -/
noncomputable def sobelMag (gray : List ℕ) (x y : ℕ) : ℝ :=
  let p := fun (i j : ℕ) => px gray 64 i j
  let gx := -p (x - 1) (y - 1) + p (x + 1) (y - 1)
    - 2 * p (x - 1) y + 2 * p (x + 1) y
    - p (x - 1) (y + 1) + p (x + 1) (y + 1)
  let gy := -p (x - 1) (y - 1) - 2 * p x (y - 1) - p (x + 1) (y - 1)
    + p (x - 1) (y + 1) + 2 * p x (y + 1) + p (x + 1) (y + 1)
  Real.sqrt (gx * gx + gy * gy)

/-- The row-major traversal order of a `size × size` buffer: `(x, y)`
cells listed with `y` outermost, as the nested source loops visit them. -/
def allCells (size : ℕ) : List (ℕ × ℕ) :=
  (List.range (size * size)).map fun idx => (idx % size, idx / size)

/-- The interior cells (both coordinates in `[1, size-2]`) in the same
traversal order. -/
def interiorCells (size : ℕ) : List (ℕ × ℕ) :=
  (allCells size).filter fun c => decide (1 ≤ c.1 ∧ c.1 + 1 < size ∧ 1 ≤ c.2 ∧ c.2 + 1 < size)

/-- Bin selection of the edge histogram: `min(floor(s/max*16), 15)`. -/
noncomputable def edgeBin (s mx : ℝ) : ℕ := min (Int.toNat ⌊s / mx * 16⌋) 15

/-- Model of `extractEdgeFeatures`: Sobel magnitudes of interior pixels
(borders stay 0), a 16-bin histogram scaled by the maximum magnitude
(left all-zero when that maximum is 0), normalised by the total pixel
count; a failed resample yields 16 zeros.  All magnitudes are nonnegative,
so folding `max` from 0 agrees with `Math.max` over the 4096 values. -/
noncomputable def extractEdgeFeatures : Except String (List ℕ) → List ℝ
  | Except.error _ => List.replicate 16 0
  | Except.ok gray =>
    let edgeStrength := (allCells 64).map fun c =>
      if 1 ≤ c.1 ∧ c.1 + 1 < 64 ∧ 1 ≤ c.2 ∧ c.2 + 1 < 64 then sobelMag gray c.1 c.2 else 0
    let maxEdge := edgeStrength.foldl max 0
    let edgeHist :=
      if 0 < maxEdge then
        edgeStrength.foldl (fun hist s => bumpAt hist (edgeBin s maxEdge)) (List.replicate 16 0)
      else List.replicate 16 0
    edgeHist.map fun count => count / (edgeStrength.length : ℝ)

/-- The local binary pattern code of an interior pixel: bit `i` is set when
the `i`-th neighbour (clockwise from top-left) is `≥` the center. -/
def lbpValue (gray : List ℕ) (x y : ℕ) : ℕ :=
  let nb := fun (i j : ℕ) => gray.getD (j * 64 + i) 0
  let center := nb x y
  (if center ≤ nb (x - 1) (y - 1) then 1 else 0)
    + (if center ≤ nb x (y - 1) then 2 else 0)
    + (if center ≤ nb (x + 1) (y - 1) then 4 else 0)
    + (if center ≤ nb (x + 1) y then 8 else 0)
    + (if center ≤ nb (x + 1) (y + 1) then 16 else 0)
    + (if center ≤ nb x (y + 1) then 32 else 0)
    + (if center ≤ nb (x - 1) (y + 1) then 64 else 0)
    + (if center ≤ nb (x - 1) y then 128 else 0)

/-- Model of `extractTextureFeatures`: the 256-bin LBP histogram over the
interior of the 64×64 grayscale buffer, normalised by `62 * 62`; a failed
resample yields 256 zeros. -/
noncomputable def extractTextureFeatures : Except String (List ℕ) → List ℝ
  | Except.error _ => List.replicate 256 0
  | Except.ok gray =>
    let lbpHistogram := (interiorCells 64).foldl
      (fun hist c => bumpAt hist (lbpValue gray c.1 c.2)) (List.replicate 256 0)
    lbpHistogram.map fun count => count / (((64 - 2) * (64 - 2) : ℕ) : ℝ)

/-- The thresholded binary mask of `extractShapeFeatures`:
1 when the intensity exceeds 128. -/
noncomputable def shapeBit (gray : List ℕ) (idx : ℕ) : ℝ :=
  if 128 < gray.getD idx 0 then 1 else 0

/-- Model of `calculatePerimeter`: the count of foreground pixels with at
least one 4-neighbour that is out of range or background. -/
noncomputable def calculatePerimeter (gray : List ℕ) : ℝ :=
  let fg := fun (i j : ℕ) => 128 < gray.getD (j * 64 + i) 0
  ((allCells 64).map fun c =>
    if fg c.1 c.2 ∧
        (¬(0 < c.2 ∧ fg c.1 (c.2 - 1)) ∨ ¬(c.1 + 1 < 64 ∧ fg (c.1 + 1) c.2)
          ∨ ¬(c.2 + 1 < 64 ∧ fg c.1 (c.2 + 1)) ∨ ¬(0 < c.1 ∧ fg (c.1 - 1) c.2))
      then (1 : ℝ) else 0).sum

/-- Model of `extractShapeFeatures`: raw and central moments of the
thresholded 64×64 mask, Hu-style invariants, compactness and aspect ratio;
an empty mask or a failed resample yields 7 zeros. -/
noncomputable def extractShapeFeatures : Except String (List ℕ) → List ℝ
  | Except.error _ => List.replicate 7 0
  | Except.ok gray =>
    let cells := allCells 64
    let m00 := (cells.map fun c => shapeBit gray (c.2 * 64 + c.1)).sum
    let m10 := (cells.map fun c => (c.1 : ℝ) * shapeBit gray (c.2 * 64 + c.1)).sum
    let m01 := (cells.map fun c => (c.2 : ℝ) * shapeBit gray (c.2 * 64 + c.1)).sum
    let m20 := (cells.map fun c => (c.1 : ℝ) * (c.1 : ℝ) * shapeBit gray (c.2 * 64 + c.1)).sum
    let m11 := (cells.map fun c => (c.1 : ℝ) * (c.2 : ℝ) * shapeBit gray (c.2 * 64 + c.1)).sum
    let m02 := (cells.map fun c => (c.2 : ℝ) * (c.2 : ℝ) * shapeBit gray (c.2 * 64 + c.1)).sum
    if m00 = 0 then [0, 0, 0, 0, 0, 0, 0]
    else
      let xc := m10 / m00
      let yc := m01 / m00
      let mu20 := m20 / m00 - xc * xc
      let mu11 := m11 / m00 - xc * yc
      let mu02 := m02 / m00 - yc * yc
      let eta20 := mu20 / m00 ^ 2
      let eta11 := mu11 / m00 ^ 2
      let eta02 := mu02 / m00 ^ 2
      let hu1 := eta20 + eta02
      let hu2 := (eta20 - eta02) ^ 2 + 4 * eta11 * eta11
      let perimeter := calculatePerimeter gray
      let compactness := if 0 < perimeter then 4 * Real.pi * m00 / (perimeter * perimeter) else 0
      let aspectRatio := if 0 < mu20 ∧ 0 < mu02 then Real.sqrt (mu20 / mu02) else 1
      [hu1, hu2, compactness, aspectRatio, eta20, eta11, eta02]

/-- Model of the k-means helper `euclideanDistance` on RGB points. -/
noncomputable def euclideanDistance (p q : ℝ × ℝ × ℝ) : ℝ :=
  Real.sqrt ((p.1 - q.1) ^ 2 + (p.2.1 - q.2.1) ^ 2 + (p.2.2 - q.2.2) ^ 2)

/-- The strict-improvement scan of the nearest-centroid loop: starting from
best index `best` at distance `bd`, each remaining centroid wins only when
strictly closer. -/
noncomputable def nearestAux (p : ℝ × ℝ × ℝ) :
    List (ℝ × ℝ × ℝ) → ℕ → ℕ → ℝ → ℕ
  | [], _, best, _ => best
  | c :: cs, i, best, bd =>
    if euclideanDistance p c < bd then nearestAux p cs (i + 1) i (euclideanDistance p c)
    else nearestAux p cs (i + 1) best bd

/-- Index of the nearest centroid; `minDist` starts at `Infinity`, so the
first centroid always wins the first comparison. -/
noncomputable def nearestCentroid (p : ℝ × ℝ × ℝ) (centroids : List (ℝ × ℝ × ℝ)) : ℕ :=
  match centroids with
  | [] => 0
  | c :: rest => nearestAux p rest 1 0 (euclideanDistance p c)

/-- Per-channel mean of a cluster; an empty cluster becomes `[0,0,0]`. -/
noncomputable def clusterMean : List (ℝ × ℝ × ℝ) → ℝ × ℝ × ℝ
  | [] => (0, 0, 0)
  | c :: cs =>
    let cluster := c :: cs
    ((cluster.map fun q => q.1).sum / (cluster.length : ℝ),
      (cluster.map fun q => q.2.1).sum / (cluster.length : ℝ),
      (cluster.map fun q => q.2.2).sum / (cluster.length : ℝ))

/-- One k-means iteration: assign every pixel to its nearest centroid
(ties broken by first index, pixels kept in order) and recompute the 5
cluster means. -/
noncomputable def kmeansStep (pixels : List (ℝ × ℝ × ℝ)) (centroids : List (ℝ × ℝ × ℝ)) :
    List (ℝ × ℝ × ℝ) :=
  (List.range 5).map fun j =>
    clusterMean (pixels.filter fun p => nearestCentroid p centroids == j)

/-- Model of `extractDominantColors`.  The ambient `Math.random()` draws
are an explicit input `seeds`: `seeds i` is the index of the pixel chosen
as the `i`-th initial centroid.  Ten fixed iterations, then the five
centroids are flattened and normalised by 255; a failed resample yields
15 zeros. -/
noncomputable def extractDominantColors (buf : Except String (List (ℕ × ℕ × ℕ)))
    (seeds : ℕ → ℕ) : List ℝ :=
  match buf with
  | Except.error _ => List.replicate 15 0
  | Except.ok raw =>
    let pixels := raw.map (fun t : ℕ × ℕ × ℕ => ((t.1 : ℝ), (t.2.1 : ℝ), (t.2.2 : ℝ)))
    let init := (List.range 5).map fun i => pixels.getD (seeds i) (0, 0, 0)
    let centroids := (kmeansStep pixels)^[10] init
    centroids.flatMap fun c => [c.1 / 255, c.2.1 / 255, c.2.2 / 255]

/-- Model of `extractBrightnessFeatures`: mean, population variance and
third-standardised-moment skewness of the grayscale intensities,
output as `[mean/255, variance/255², skewness]`; a failed resample
yields `[0, 0, 0]`. -/
noncomputable def extractBrightnessFeatures : Except String (List ℕ) → List ℝ
  | Except.error _ => [0, 0, 0]
  | Except.ok gray =>
    let pixels := gray.map (fun p : ℕ => (p : ℝ))
    let n : ℝ := pixels.length
    let mean := pixels.sum / n
    let variance := (pixels.map fun p => (p - mean) ^ 2).sum / n
    let skewness :=
      if 0 < variance then (pixels.map fun p => (p - mean) ^ 3).sum / (n * variance ^ (1.5 : ℝ))
      else 0
    [mean / 255, variance / (255 * 255), skewness]

/-- The local contrast of an interior pixel: mean absolute difference to
its four axis neighbours. -/
noncomputable def localContrast (gray : List ℕ) (x y : ℕ) : ℝ :=
  let p := fun (i j : ℕ) => px gray 64 i j
  (|p x y - p x (y - 1)| + |p x y - p (x + 1) y| + |p x y - p x (y + 1)| + |p x y - p (x - 1) y|) / 4

/-- Model of `extractContrastFeatures`: the average local contrast over
interior pixels, normalised by 255; a failed resample yields `[0]`. -/
noncomputable def extractContrastFeatures : Except String (List ℕ) → List ℝ
  | Except.error _ => [0]
  | Except.ok gray =>
    let cells := interiorCells 64
    let totalContrast := (cells.map fun c => localContrast gray c.1 c.2).sum
    let contrastCount := cells.length
    let avgContrast := if 0 < contrastCount then totalContrast / (contrastCount : ℝ) else 0
    [avgContrast / 255]

/-! ### Feature vector combiner -/

/-- The weight table of `combineFeatures`; an unrecognized category
defaults to `0.1` (the `|| 0.1` fallback). -/
noncomputable def weightFor (featureType : String) : ℝ :=
  if featureType = "colorHistogram" then 0.3
  else if featureType = "dominantColors" then 0.25
  else if featureType = "edgeFeatures" then 0.15
  else if featureType = "textureFeatures" then 0.15
  else if featureType = "shapeFeatures" then 0.1
  else if featureType = "brightness" then 0.03
  else if featureType = "contrast" then 0.02
  else 0.1

/-- Model of `combineFeatures`.  `Object.entries` of the features object
enumerates its keys in insertion order, so the input is the ordered list
of `(name, sub-vector)` pairs; each sub-vector is scaled by its weight and
appended. -/
noncomputable def combineFeatures (features : List (String × List ℝ)) : List ℝ :=
  features.foldl (fun combined f => combined ++ f.2.map fun v => v * weightFor f.1) []

/-- The outcomes of the per-extractor `sharp` resamples that
`extractAdvancedFeatures` feeds to its seven sub-extractors, together with
the random pixel indices drawn by the k-means initializer. -/
structure SubBuffers where
  colorBuf : Except String (List (ℕ × ℕ × ℕ))
  edgeBuf : Except String (List ℕ)
  textureBuf : Except String (List ℕ)
  shapeBuf : Except String (List ℕ)
  colorsBuf : Except String (List (ℕ × ℕ × ℕ))
  kmeansSeeds : ℕ → ℕ
  brightBuf : Except String (List ℕ)
  contrastBuf : Except String (List ℕ)

/-- Model of `extractAdvancedFeatures`.  The outer `Except` is the initial
resample of the uploaded buffer: its failure is rethrown.  On success the
seven sub-extractors run (each absorbing its own resample failure) and
their outputs are combined in the insertion order of the features
object literal. -/
noncomputable def extractAdvancedFeatures : Except String SubBuffers → Except String (List ℝ)
  | Except.error e => Except.error e
  | Except.ok s =>
    Except.ok (combineFeatures
      [("colorHistogram", extractColorHistogram s.colorBuf),
        ("edgeFeatures", extractEdgeFeatures s.edgeBuf),
        ("textureFeatures", extractTextureFeatures s.textureBuf),
        ("shapeFeatures", extractShapeFeatures s.shapeBuf),
        ("dominantColors", extractDominantColors s.colorsBuf s.kmeansSeeds),
        ("brightness", extractBrightnessFeatures s.brightBuf),
        ("contrast", extractContrastFeatures s.contrastBuf)])

/-- Model of `extractFeaturesFromUrl`: any failure while downloading or
extracting is swallowed and replaced by the default vector
`new Array(1331).fill(0.001)`. -/
noncomputable def extractFeaturesFromUrl (r : Except String SubBuffers) : List ℝ :=
  match extractAdvancedFeatures r with
  | Except.ok v => v
  | Except.error _ => List.replicate 1331 0.001

/-- A well-formed input to the brightness extractor: either a failed
resample, or a non-empty buffer of 8-bit intensities. -/
def brightnessInputOK : Except String (List ℕ) → Prop
  | Except.error _ => True
  | Except.ok gray => gray ≠ [] ∧ ∀ p ∈ gray, p ≤ 255

/-! ### Ranking and matching engine -/

/-- A catalog item as the ranking engine sees it: its Mongo `_id`, stored
fingerprint, category and price. -/
structure Product where
  id : String
  colorFeatures : List ℝ
  category : String
  price : ℝ

/-- The per-candidate object built by `findAdvancedSimilarProducts`:
the spread product plus the computed scoring fields. -/
structure RankedEntry where
  product : Product
  similarity : ℝ
  baseSimilarity : ℝ
  categoryMatch : Bool
  priceRange : String

/-- A JS indexed read `features[i] || 0`: out-of-range (in particular
negative) indices give `undefined`, which `|| 0` turns into 0. -/
noncomputable def jsGetOr (features : List ℝ) (i : ℤ) : ℝ :=
  if 0 ≤ i then features.getD i.toNat 0 else 0

/-- Model of `inferCategoryFromFeatures`: reads the positions `length-3`
and `length-1` of the fingerprint as brightness/contrast proxies and
applies fixed thresholds. -/
noncomputable def inferCategoryFromFeatures (features : List ℝ) : Option String :=
  if features.length = 0 then none
  else
    let avgBrightness := jsGetOr features ((features.length : ℤ) - 3)
    let avgContrast := jsGetOr features ((features.length : ℤ) - 1)
    if 0.8 < avgBrightness ∧ avgContrast < 0.3 then some "Electronics"
    else if avgBrightness < 0.4 then some "Fashion"
    else if 0.6 < avgContrast then some "Tools"
    else none

/-- JS `toLowerCase()` (ASCII level), as a per-character map. -/
def jsToLower (s : String) : String := ⟨s.data.map Char.toLower⟩

/-- The boost condition of `findAdvancedSimilarProducts`: a category was
inferred and it matches the candidate's category case-insensitively. -/
noncomputable def categoryBoostApplies (uploadedFeatures : List ℝ) (category : String) : Bool :=
  match inferCategoryFromFeatures uploadedFeatures with
  | some inferred => jsToLower category == jsToLower inferred
  | none => false

/-- Model of `calculatePriceRelevance`: closeness of the candidate's price
to the average price of the candidate set. -/
noncomputable def calculatePriceRelevance (productPrice : ℝ) (allProducts : List Product) : ℝ :=
  let prices := allProducts.map fun p => p.price
  let avgPrice := prices.sum / (prices.length : ℝ)
  max 0 (1 - |productPrice - avgPrice| / avgPrice)

/-- Model of `getPriceRange`. -/
noncomputable def getPriceRange (price : ℝ) : String :=
  if price < 30 then "budget"
  else if price < 100 then "mid-range"
  else if price < 300 then "premium"
  else "luxury"

/-- The candidate-scoring map of `findAdvancedSimilarProducts`: combined
similarity, optional category boost, price-relevance bonus, and the
tie-break fields.  `categoryMatch` uses strict `===` against the inferred
category (case-sensitive, false when no category was inferred). -/
noncomputable def scoreEntry (uploadedFeatures : List ℝ) (products : List Product)
    (categoryBoost : ℝ) (product : Product) : RankedEntry :=
  let sim := calculateAdvancedSimilarity (some uploadedFeatures) (some product.colorFeatures)
  let baseSimilarity :=
    sim + (if categoryBoostApplies uploadedFeatures product.category then categoryBoost else 0)
  let priceWeight := calculatePriceRelevance product.price products
  { product := product
    similarity := min 1 (baseSimilarity + priceWeight * 0.05)
    baseSimilarity := baseSimilarity
    categoryMatch := decide (inferCategoryFromFeatures uploadedFeatures = some product.category)
    priceRange := getPriceRange product.price }

/-- JS boolean-to-number coercion used by `b.categoryMatch - a.categoryMatch`. -/
noncomputable def cmVal (b : Bool) : ℝ := if b then 1 else 0

/-- The three-tier comparator of `findAdvancedSimilarProducts`: score
difference when outside the 0.05 tie band, then category-match flag, then
distance of price from 100. -/
noncomputable def rankCmp (a b : RankedEntry) : ℝ :=
  if 0.05 < |b.similarity - a.similarity| then b.similarity - a.similarity
  else if a.categoryMatch ≠ b.categoryMatch then cmVal b.categoryMatch - cmVal a.categoryMatch
  else |a.product.price - 100| - |b.product.price - 100|

/-- `Array.prototype.sort(cmp)` modelled as a stable sort placing `a`
before `b` when `cmp a b ≤ 0` (the ECMAScript-required behaviour for a
consistent comparator; stable, as required since ES2019). -/
noncomputable def jsSort {α : Type} (cmp : α → α → ℝ) (l : List α) : List α :=
  @List.insertionSort α (fun a b => cmp a b ≤ 0) (fun _ _ => Real.decidableLE _ _) l

/-- Model of `findAdvancedSimilarProducts`: score all candidates, sort with
`rankCmp`, truncate to `limit`, then drop scores `≤ 0.15`. -/
noncomputable def findAdvancedSimilarProducts (uploadedFeatures : List ℝ)
    (products : List Product) (limit : ℕ) (categoryBoost : ℝ) : List RankedEntry :=
  let similarities := products.map (scoreEntry uploadedFeatures products categoryBoost)
  ((jsSort rankCmp similarities).take limit).filter fun e => decide (0.15 < e.similarity)

/-- One search strategy's tagged output, as fed to `combineSearchResults`. -/
structure StrategyResult where
  name : String
  products : List RankedEntry

/-- An entry of the merged result list: the strategy entry spread together
with its reweighted similarity, provenance tag and original score. -/
structure MergedEntry where
  entry : RankedEntry
  similarity : ℝ
  matchStrategy : String
  originalSimilarity : ℝ

/-- The strategy weight table of `combineSearchResults` (unknown strategy
names default to 0.5). -/
noncomputable def strategyWeight (name : String) : ℝ :=
  if name = "AI Visual Similarity" then 1
  else if name = "Category-Enhanced" then 0.8
  else if name = "Price-Range Similar" then 0.6
  else 0.5

/-- Model of `combineSearchResults`: walk the strategies in order, keep the
first occurrence of each product id, rescale its similarity by the
strategy's weight, then sort descending by the reweighted similarity. -/
noncomputable def combineSearchResults (searchStrategies : List StrategyResult) :
    List MergedEntry :=
  let step := fun (st : List String × List MergedEntry) (strategy : StrategyResult) =>
    strategy.products.foldl
      (fun st p =>
        if st.1.contains p.product.id then st
        else (p.product.id :: st.1,
          st.2 ++ [{ entry := p
                     similarity := p.similarity * strategyWeight strategy.name
                     matchStrategy := strategy.name
                     originalSimilarity := p.similarity }]))
      st
  let allResults := (searchStrategies.foldl step ([], [])).2
  jsSort (fun a b => b.similarity - a.similarity) allResults

/-- A concrete catalog fixture used to evaluate the ranking engine. -/
noncomputable def prodA : Product := ⟨"a", [1], "Electronics", 100⟩

/-- A second concrete catalog fixture, category-matched to the inferred
`Fashion` and with a similarity strictly inside the 0.05 tie band of
`prodA` (final scores 0.85 and 0.83, a gap of 0.02, so the tie branch is
taken with a wide margin on either side of the band's edges). -/
noncomputable def prodB : Product := ⟨"b", [1 / 3], "Fashion", 100⟩

/-- Model of `calculateSearchConfidence`: 0 on an empty list, otherwise a
weighted blend of the capped top score, a variance-based consistency
score and a count-based quantity score. -/
noncomputable def calculateSearchConfidence (results : List MergedEntry) : ℝ :=
  match results with
  | [] => 0
  | top :: _ =>
    let topSimilarity := top.similarity
    let avgSimilarity := (results.map fun p => p.similarity).sum / (results.length : ℝ)
    let similarityVariance :=
      (results.map fun p => (p.similarity - avgSimilarity) ^ 2).sum / (results.length : ℝ)
    let topScore := min (topSimilarity * 2) 1
    let consistencyScore := max 0 (1 - similarityVariance * 10)
    let quantityScore := min ((results.length : ℝ) / 10) 1
    topScore * 0.5 + consistencyScore * 0.3 + quantityScore * 0.2

/-! ### Basic lemmas about the similarity metrics -/

lemma normSq_nonneg (a : List ℝ) : 0 ≤ normSq a := by
  refine List.sum_nonneg ?_
  intro x hx
  obtain ⟨y, _, rfl⟩ := List.mem_map.mp hx
  exact mul_self_nonneg y

lemma devSq_nonneg (a : List ℝ) (m : ℝ) : 0 ≤ devSq a m := by
  refine List.sum_nonneg ?_
  intro x hx
  obtain ⟨y, _, rfl⟩ := List.mem_map.mp hx
  exact sq_nonneg _

lemma dotProduct_self (a : List ℝ) : dotProduct a a = normSq a := by
  simp [dotProduct, normSq]

lemma squaredDiffSum_self (a : List ℝ) : squaredDiffSum a a = 0 := by
  simp [squaredDiffSum]

lemma dotProduct_comm (a b : List ℝ) : dotProduct a b = dotProduct b a := by
  unfold dotProduct
  rw [List.zipWith_comm_of_comm]
  exact fun x y => mul_comm x y

lemma squaredDiffSum_comm (a b : List ℝ) : squaredDiffSum a b = squaredDiffSum b a := by
  unfold squaredDiffSum
  rw [List.zipWith_comm_of_comm]
  intro x y
  ring

lemma zipWith_mul_sub_comm (a b : List ℝ) (m1 m2 : ℝ) :
    (List.zipWith (fun x y => (x - m1) * (y - m2)) a b).sum
      = (List.zipWith (fun x y => (x - m2) * (y - m1)) b a).sum := by
  induction a generalizing b with
  | nil => cases b <;> simp
  | cons x xs ih =>
    cases b with
    | nil => simp
    | cons y ys =>
      simp only [List.zipWith_cons_cons, List.sum_cons, ih]
      ring

lemma zipWith_sub_sq_self_sum (v : List ℝ) (m : ℝ) :
    (List.zipWith (fun x y => (x - m) * (y - m)) v v).sum = devSq v m := by
  rw [List.zipWith_same]
  unfold devSq
  induction v with
  | nil => simp
  | cons x xs ih =>
    simp only [List.map_cons, List.sum_cons, ih]
    ring

lemma clamp01_nonneg (x : ℝ) : 0 ≤ clamp01 x := le_max_left 0 _

lemma clamp01_le_one (x : ℝ) : clamp01 x ≤ 1 := max_le zero_le_one (min_le_left 1 x)

lemma cosine_comm (a b : List ℝ) :
    calculateCosineSimilarity a b = calculateCosineSimilarity b a := by
  unfold calculateCosineSimilarity
  by_cases hc : normSq a = 0 ∨ normSq b = 0
  · rw [if_pos hc, if_pos hc.symm]
  · rw [if_neg hc, if_neg (fun hh => hc hh.symm), dotProduct_comm, mul_comm]

lemma euclidean_comm (a b : List ℝ) :
    calculateEuclideanSimilarity a b = calculateEuclideanSimilarity b a := by
  unfold calculateEuclideanSimilarity
  rw [squaredDiffSum_comm]

lemma correlation_comm (a b : List ℝ) (h : a.length = b.length) :
    calculateCorrelationSimilarity a b = calculateCorrelationSimilarity b a := by
  simp only [calculateCorrelationSimilarity]
  rw [h]
  rw [zipWith_mul_sub_comm a b (a.sum / (b.length : ℝ)) (b.sum / (b.length : ℝ)),
    mul_comm (devSq a (a.sum / (b.length : ℝ))) (devSq b (b.sum / (b.length : ℝ)))]

/-- The empty JS array is truthy and has length equal to itself, so two
empty vectors slip past the guard: cosine degenerates to 0, euclidean to
`1/(1+0) = 1`, correlation to 0, giving `clamp(0.3) = 0.3`. -/
lemma advSim_nil_nil : calculateAdvancedSimilarity (some ([] : List ℝ)) (some []) = 0.3 := by
  simp only [calculateAdvancedSimilarity, if_true]
  have hcos : calculateCosineSimilarity ([] : List ℝ) [] = 0 := by
    unfold calculateCosineSimilarity
    rw [if_pos (Or.inl (by simp [normSq]))]
  have heuc : calculateEuclideanSimilarity ([] : List ℝ) [] = 1 := by
    unfold calculateEuclideanSimilarity squaredDiffSum
    simp
  have hcorr : calculateCorrelationSimilarity ([] : List ℝ) [] = 0 := by
    simp only [calculateCorrelationSimilarity]
    rw [if_pos (by simp [devSq])]
  rw [hcos, heuc, hcorr]
  unfold clamp01
  norm_num

/-- C2 (corrected): `calculateAdvancedSimilarity` returns 0 when either
input is absent (`null`/`undefined`) or the lengths differ — but two empty
vectors are equal-length truthy arrays and yield 0.3, not 0. -/
theorem spec_C2_guard_zero :
    (∀ f2 : Option (List ℝ), calculateAdvancedSimilarity none f2 = 0)
    ∧ (∀ f1 : Option (List ℝ), calculateAdvancedSimilarity f1 none = 0)
    ∧ (∀ a b : List ℝ, a.length ≠ b.length →
        calculateAdvancedSimilarity (some a) (some b) = 0)
    ∧ calculateAdvancedSimilarity (some ([] : List ℝ)) (some []) = 0.3 := by
  refine ⟨?_, ?_, ?_, advSim_nil_nil⟩
  · intro f2; cases f2 <;> rfl
  · intro f1; cases f1 <;> rfl
  · intro a b h
    simp only [calculateAdvancedSimilarity]
    rw [if_neg h]

/-- Witness for C2 at a concrete mismatched pair. -/
theorem spec_C2_guard_zero_witness :
    calculateAdvancedSimilarity (some [(1 : ℝ)]) (some []) = 0 :=
  spec_C2_guard_zero.2.2.1 [1] [] (by simp)

/-- Counterexample to C2 as stated: the similarity of two empty vectors is
0.3, not 0. -/
theorem spec_C2_counterexample :
    calculateAdvancedSimilarity (some ([] : List ℝ)) (some []) = 0.3 ∧ (0.3 : ℝ) ≠ 0 :=
  ⟨advSim_nil_nil, by norm_num⟩

/-- C4 (confirmed): for equal-length vectors the combined score is
`clamp(0.5·cosine + 0.3·euclidean + 0.2·correlation, 0, 1)`, cosine is 0
when either norm is 0, correlation is 0 when either summed squared
deviation vanishes, and every returned score lies in `[0,1]`. -/
theorem spec_C4_combined_formula (a b : List ℝ) (h : a.length = b.length) :
    calculateAdvancedSimilarity (some a) (some b)
      = clamp01 (0.5 * calculateCosineSimilarity a b + 0.3 * calculateEuclideanSimilarity a b
          + 0.2 * calculateCorrelationSimilarity a b)
    ∧ (normSq a = 0 ∨ normSq b = 0 → calculateCosineSimilarity a b = 0)
    ∧ (devSq a (a.sum / (a.length : ℝ)) = 0 ∨ devSq b (b.sum / (a.length : ℝ)) = 0 →
        calculateCorrelationSimilarity a b = 0)
    ∧ (∀ f1 f2 : Option (List ℝ),
        0 ≤ calculateAdvancedSimilarity f1 f2 ∧ calculateAdvancedSimilarity f1 f2 ≤ 1) := by
  refine ⟨?_, ?_, ?_, ?_⟩
  · simp only [calculateAdvancedSimilarity]
    rw [if_pos h]
    congr 1
    ring
  · intro h0
    unfold calculateCosineSimilarity
    rw [if_pos h0]
  · intro h0
    simp only [calculateCorrelationSimilarity]
    rw [if_pos ?_]
    rcases h0 with h0 | h0 <;> rw [h0] <;> simp
  · intro f1 f2
    match f1, f2 with
    | some a, some b =>
      simp only [calculateAdvancedSimilarity]
      by_cases hl : a.length = b.length
      · rw [if_pos hl]
        exact ⟨clamp01_nonneg _, clamp01_le_one _⟩
      · rw [if_neg hl]
        norm_num
    | none, _ => constructor <;> cases f2 <;> norm_num [calculateAdvancedSimilarity]
    | some _, none => constructor <;> norm_num [calculateAdvancedSimilarity]

/-- Witness for C4 at the concrete pair `[1]`, `[0]`. -/
theorem spec_C4_combined_formula_witness :
    calculateAdvancedSimilarity (some [(1 : ℝ)]) (some [0])
      = clamp01 (0.5 * calculateCosineSimilarity [1] [0]
          + 0.3 * calculateEuclideanSimilarity [1] [0]
          + 0.2 * calculateCorrelationSimilarity [1] [0]) :=
  (spec_C4_combined_formula [1] [0] (by simp)).1

/-- C5 (confirmed): a vector with nonzero norm and nonzero variance has
combined self-similarity exactly 1. -/
theorem spec_C5_self_similarity (v : List ℝ) (h1 : normSq v ≠ 0)
    (h2 : devSq v (v.sum / (v.length : ℝ)) ≠ 0) :
    calculateAdvancedSimilarity (some v) (some v) = 1 := by
  have hcos : calculateCosineSimilarity v v = 1 := by
    unfold calculateCosineSimilarity
    rw [if_neg (by simp [h1]), dotProduct_self,
      Real.mul_self_sqrt (normSq_nonneg v), div_self h1]
  have heuc : calculateEuclideanSimilarity v v = 1 := by
    unfold calculateEuclideanSimilarity
    rw [squaredDiffSum_self, Real.sqrt_zero]
    norm_num
  have hcorr : calculateCorrelationSimilarity v v = 1 := by
    simp only [calculateCorrelationSimilarity]
    rw [zipWith_sub_sq_self_sum v (v.sum / (v.length : ℝ)),
      Real.sqrt_mul_self (devSq_nonneg v _), if_neg h2, div_self h2]
    norm_num
  simp only [calculateAdvancedSimilarity, if_true]
  rw [hcos, heuc, hcorr]
  unfold clamp01
  norm_num

/-- Witness for C5 at `v = [0, 1]`. -/
theorem spec_C5_self_similarity_witness :
    calculateAdvancedSimilarity (some [(0 : ℝ), 1]) (some [0, 1]) = 1 :=
  spec_C5_self_similarity [0, 1] (by norm_num [normSq]) (by norm_num [devSq])

/-- C6 (confirmed): the combined similarity is symmetric in its two
arguments. -/
theorem spec_C6_symmetric (f1 f2 : Option (List ℝ)) :
    calculateAdvancedSimilarity f1 f2 = calculateAdvancedSimilarity f2 f1 := by
  match f1, f2 with
  | none, f2 => cases f2 <;> rfl
  | some a, none => rfl
  | some a, some b =>
    simp only [calculateAdvancedSimilarity]
    by_cases h : a.length = b.length
    · rw [if_pos h, if_pos h.symm, cosine_comm, euclidean_comm, correlation_comm a b h]
    · rw [if_neg h, if_neg (fun hh => h hh.symm)]

/-- C9 (confirmed): for a non-empty result list the confidence is
`0.5·min(2·topScore,1) + 0.3·max(0, 1 − 10·variance) + 0.2·min(count/10,1)`
with the population variance of the scores, and it is 0 for an empty
list. -/
theorem spec_C9_confidence_formula :
    (∀ (top : MergedEntry) (rest : List MergedEntry),
      calculateSearchConfidence (top :: rest)
        = 0.5 * min (2 * top.similarity) 1
          + 0.3 * max 0 (1 - 10 *
              (((top :: rest).map fun p => (p.similarity
                  - ((top :: rest).map fun q => q.similarity).sum
                    / (((top :: rest).length : ℕ) : ℝ)) ^ 2).sum
                / (((top :: rest).length : ℕ) : ℝ)))
          + 0.2 * min ((((top :: rest).length : ℕ) : ℝ) / 10) 1)
    ∧ calculateSearchConfidence [] = 0 := by
  constructor
  · intro top rest
    simp only [calculateSearchConfidence]
    rw [mul_comm top.similarity 2]
    rw [mul_comm
      ((List.map (fun p => (p.similarity
          - (List.map (fun q => q.similarity) (top :: rest)).sum
            / (((top :: rest).length : ℕ) : ℝ)) ^ 2) (top :: rest)).sum
        / (((top :: rest).length : ℕ) : ℝ)) (10 : ℝ)]
    ring
  · rfl

/-! ### Fixed output lengths of the extractors -/

lemma length_bumpAt (hist : List ℝ) (i : ℕ) : (bumpAt hist i).length = hist.length := by
  simp [bumpAt]

lemma length_foldl_bump {τ : Type} (l : List τ) (f : τ → ℕ) (init : List ℝ) :
    (l.foldl (fun hist t => bumpAt hist (f t)) init).length = init.length := by
  induction l generalizing init with
  | nil => rfl
  | cons x xs ih =>
    simp only [List.foldl_cons]
    rw [ih, length_bumpAt]

lemma length_extractColorHistogram (b : Except String (List (ℕ × ℕ × ℕ))) :
    (extractColorHistogram b).length = 1024 := by
  cases b with
  | error e => simp only [extractColorHistogram, List.length_replicate]
  | ok sample =>
    simp only [extractColorHistogram, List.length_map]
    rw [length_foldl_bump]
    simp only [List.length_replicate]

lemma length_extractEdgeFeatures (b : Except String (List ℕ)) :
    (extractEdgeFeatures b).length = 16 := by
  cases b with
  | error e => simp [extractEdgeFeatures]
  | ok gray =>
    simp only [extractEdgeFeatures, List.length_map]
    split
    · rw [length_foldl_bump]; simp
    · simp

lemma length_extractTextureFeatures (b : Except String (List ℕ)) :
    (extractTextureFeatures b).length = 256 := by
  cases b with
  | error e => simp only [extractTextureFeatures, List.length_replicate]
  | ok gray =>
    simp only [extractTextureFeatures, List.length_map]
    rw [length_foldl_bump]
    simp only [List.length_replicate]

lemma length_extractShapeFeatures (b : Except String (List ℕ)) :
    (extractShapeFeatures b).length = 7 := by
  cases b with
  | error e => simp [extractShapeFeatures]
  | ok gray =>
    simp only [extractShapeFeatures]
    split <;> simp

lemma kmeansStep_length (pixels cs : List (ℝ × ℝ × ℝ)) : (kmeansStep pixels cs).length = 5 := by
  simp [kmeansStep]

lemma iterate_kmeansStep_length (pixels : List (ℝ × ℝ × ℝ)) (n : ℕ) (cs : List (ℝ × ℝ × ℝ))
    (h : cs.length = 5) : ((kmeansStep pixels)^[n] cs).length = 5 := by
  induction n generalizing cs with
  | zero => simpa using h
  | succ n ih =>
    rw [Function.iterate_succ_apply]
    exact ih _ (kmeansStep_length _ _)

lemma length_flatMap_triple (cs : List (ℝ × ℝ × ℝ)) :
    (cs.flatMap fun c => [c.1 / 255, c.2.1 / 255, c.2.2 / 255]).length = 3 * cs.length := by
  induction cs with
  | nil => simp
  | cons c cs ih =>
    simp only [List.flatMap_cons, List.length_append, ih, List.length_cons]
    simp
    ring

lemma length_extractDominantColors (b : Except String (List (ℕ × ℕ × ℕ))) (seeds : ℕ → ℕ) :
    (extractDominantColors b seeds).length = 15 := by
  cases b with
  | error e => simp [extractDominantColors]
  | ok raw =>
    simp only [extractDominantColors]
    rw [length_flatMap_triple, iterate_kmeansStep_length]
    simp

lemma length_extractBrightnessFeatures (b : Except String (List ℕ)) :
    (extractBrightnessFeatures b).length = 3 := by
  cases b <;> simp [extractBrightnessFeatures]

lemma length_extractContrastFeatures (b : Except String (List ℕ)) :
    (extractContrastFeatures b).length = 1 := by
  cases b <;> simp [extractContrastFeatures]

/-! ### The combiner as a flat map -/

lemma combineFeatures_eq_flatMap (features : List (String × List ℝ)) :
    combineFeatures features = features.flatMap fun f => f.2.map fun v => v * weightFor f.1 := by
  unfold combineFeatures
  suffices h : ∀ acc : List ℝ,
      features.foldl (fun combined f => combined ++ f.2.map fun v => v * weightFor f.1) acc
        = acc ++ features.flatMap fun f => f.2.map fun v => v * weightFor f.1 by
    simpa using h []
  induction features with
  | nil => intro acc; simp
  | cons f fs ih =>
    intro acc
    simp only [List.foldl_cons, List.flatMap_cons, ih, List.append_assoc]

/-- C1 (corrected): on every successful extraction the fingerprint has
exactly `1322 = 1024+16+256+7+15+3+1` elements, but the fallback default
vector of `extractFeaturesFromUrl` has the stale length 1331, not 1322. -/
theorem spec_C1_fingerprint_length :
    (∀ subs : SubBuffers,
      (extractAdvancedFeatures (Except.ok subs)).map List.length = Except.ok 1322)
    ∧ (1322 : ℕ) = 1024 + 16 + 256 + 7 + 15 + 3 + 1
    ∧ (∀ msg : String,
        extractFeaturesFromUrl (Except.error msg) = List.replicate 1331 (0.001 : ℝ)) := by
  refine ⟨?_, by norm_num, fun msg => rfl⟩
  intro subs
  have h : (combineFeatures
      [("colorHistogram", extractColorHistogram subs.colorBuf),
        ("edgeFeatures", extractEdgeFeatures subs.edgeBuf),
        ("textureFeatures", extractTextureFeatures subs.textureBuf),
        ("shapeFeatures", extractShapeFeatures subs.shapeBuf),
        ("dominantColors", extractDominantColors subs.colorsBuf subs.kmeansSeeds),
        ("brightness", extractBrightnessFeatures subs.brightBuf),
        ("contrast", extractContrastFeatures subs.contrastBuf)]).length = 1322 := by
    rw [combineFeatures_eq_flatMap]
    simp only [List.flatMap_cons, List.flatMap_nil, List.append_nil, List.length_append,
      List.length_map, length_extractColorHistogram, length_extractEdgeFeatures,
      length_extractTextureFeatures, length_extractShapeFeatures,
      length_extractDominantColors, length_extractBrightnessFeatures,
      length_extractContrastFeatures]
  simp only [extractAdvancedFeatures, Except.map, h]

/-- Counterexample to C1 as stated: the default vector returned when a URL
download or extraction fails has 1331 entries, which is not the
fingerprint length 1322. -/
theorem spec_C1_counterexample :
    (extractFeaturesFromUrl (Except.error "download failed")).length = 1331
      ∧ (1331 : ℕ) ≠ 1322 := by
  constructor
  · simp only [extractFeaturesFromUrl, extractAdvancedFeatures, List.length_replicate]
  · decide

/-- C8 (confirmed): a failed sub-extractor resample yields the zero vector
of that extractor's fixed length, and the pipeline always returns a
combined vector (never an error) no matter which sub-extractors failed. -/
theorem spec_C8_fault_isolation :
    (∀ e : String, extractColorHistogram (Except.error e) = List.replicate 1024 0)
    ∧ (∀ e : String, extractEdgeFeatures (Except.error e) = List.replicate 16 0)
    ∧ (∀ e : String, extractTextureFeatures (Except.error e) = List.replicate 256 0)
    ∧ (∀ e : String, extractShapeFeatures (Except.error e) = List.replicate 7 0)
    ∧ (∀ (e : String) (seeds : ℕ → ℕ),
        extractDominantColors (Except.error e) seeds = List.replicate 15 0)
    ∧ (∀ e : String, extractBrightnessFeatures (Except.error e) = List.replicate 3 0)
    ∧ (∀ e : String, extractContrastFeatures (Except.error e) = List.replicate 1 0)
    ∧ (∀ subs : SubBuffers, ∃ v : List ℝ, extractAdvancedFeatures (Except.ok subs) = Except.ok v) :=
  ⟨fun _ => rfl, fun _ => rfl, fun _ => rfl, fun _ => rfl, fun _ _ => rfl,
    fun _ => rfl, fun _ => rfl, fun _ => ⟨_, rfl⟩⟩

/-- C7 (confirmed): `combineFeatures` scales each sub-vector by its
category's weight and concatenates in the fixed order colorHistogram,
edgeFeatures, textureFeatures, shapeFeatures, dominantColors, brightness,
contrast; unrecognized categories default to weight 0.1. -/
theorem spec_C7_weighted_concatenation :
    (∀ ch ef tf sf dc br ct : List ℝ,
      combineFeatures
          [("colorHistogram", ch), ("edgeFeatures", ef), ("textureFeatures", tf),
            ("shapeFeatures", sf), ("dominantColors", dc), ("brightness", br), ("contrast", ct)]
        = (ch.map fun v => v * 0.3) ++ (ef.map fun v => v * 0.15) ++ (tf.map fun v => v * 0.15)
          ++ (sf.map fun v => v * 0.1) ++ (dc.map fun v => v * 0.25)
          ++ (br.map fun v => v * 0.03) ++ (ct.map fun v => v * 0.02))
    ∧ weightFor "colorHistogram" = 0.3 ∧ weightFor "edgeFeatures" = 0.15
    ∧ weightFor "textureFeatures" = 0.15 ∧ weightFor "shapeFeatures" = 0.1
    ∧ weightFor "dominantColors" = 0.25 ∧ weightFor "brightness" = 0.03
    ∧ weightFor "contrast" = 0.02
    ∧ (∀ name : String, name ≠ "colorHistogram" → name ≠ "edgeFeatures" →
        name ≠ "textureFeatures" → name ≠ "shapeFeatures" → name ≠ "dominantColors" →
        name ≠ "brightness" → name ≠ "contrast" → weightFor name = 0.1) := by
  refine ⟨?_, by simp [weightFor], by simp [weightFor], by simp [weightFor],
    by simp [weightFor], by simp [weightFor], by simp [weightFor], by simp [weightFor], ?_⟩
  · intro ch ef tf sf dc br ct
    simp [combineFeatures_eq_flatMap, weightFor]
  · intro name h1 h2 h3 h4 h5 h6 h7
    simp only [weightFor, if_neg h1, if_neg h5, if_neg h2, if_neg h3, if_neg h4, if_neg h6,
      if_neg h7]

/-- Witness for C7: a concrete unrecognized category gets weight 0.1. -/
theorem spec_C7_weighted_concatenation_witness : weightFor "histogramOfGradients" = 0.1 :=
  spec_C7_weighted_concatenation.2.2.2.2.2.2.2.2 "histogramOfGradients" (by decide) (by decide)
    (by decide) (by decide) (by decide) (by decide) (by decide)

/-! ### The weight table, entry by entry -/

lemma weightFor_brightness : weightFor "brightness" = 0.03 := by simp [weightFor]

lemma weightFor_contrast : weightFor "contrast" = 0.02 := by simp [weightFor]

/-! ### Brightness component bounds (for the category-inference claim) -/

lemma brightness_components (r : Except String (List ℕ)) (hr : brightnessInputOK r) :
    ∃ b0 b1 b2 : ℝ, extractBrightnessFeatures r = [b0, b1, b2] ∧ 0 ≤ b1 ∧ b1 ≤ 1 := by
  cases r with
  | error e => exact ⟨0, 0, 0, rfl, le_refl 0, by norm_num⟩
  | ok gray =>
    obtain ⟨hne, hle⟩ := hr
    have hn0 : 0 < gray.length := List.length_pos.mpr hne
    have hnR : (0 : ℝ) < (((gray.map (fun p : ℕ => (p : ℝ))).length : ℕ) : ℝ) := by
      rw [List.length_map]
      exact_mod_cast hn0
    have hv0 : ∀ v ∈ gray.map (fun p : ℕ => (p : ℝ)), (0 : ℝ) ≤ v ∧ v ≤ 255 := by
      intro v hv
      obtain ⟨p, hp, rfl⟩ := List.mem_map.mp hv
      exact ⟨Nat.cast_nonneg p, by exact_mod_cast hle p hp⟩
    have hsum0 : 0 ≤ (gray.map (fun p : ℕ => (p : ℝ))).sum :=
      List.sum_nonneg fun x hx => (hv0 x hx).1
    have hsumle : (gray.map (fun p : ℕ => (p : ℝ))).sum
        ≤ (((gray.map (fun p : ℕ => (p : ℝ))).length : ℕ) : ℝ) * 255 := by
      have h := List.sum_le_card_nsmul (gray.map (fun p : ℕ => (p : ℝ))) 255
        fun x hx => (hv0 x hx).2
      rwa [nsmul_eq_mul] at h
    have hmean0 : 0 ≤ (gray.map (fun p : ℕ => (p : ℝ))).sum
        / (((gray.map (fun p : ℕ => (p : ℝ))).length : ℕ) : ℝ) := div_nonneg hsum0 hnR.le
    have hmeanle : (gray.map (fun p : ℕ => (p : ℝ))).sum
        / (((gray.map (fun p : ℕ => (p : ℝ))).length : ℕ) : ℝ) ≤ 255 := by
      rw [div_le_iff₀ hnR]
      linarith [hsumle]
    have hdev : ∀ v ∈ gray.map (fun p : ℕ => (p : ℝ)),
        (v - (gray.map (fun p : ℕ => (p : ℝ))).sum
          / (((gray.map (fun p : ℕ => (p : ℝ))).length : ℕ) : ℝ)) ^ 2 ≤ 255 ^ 2 := by
      intro v hv
      have h1 := (hv0 v hv).1
      have h2 := (hv0 v hv).2
      exact sq_le_sq' (by linarith) (by linarith)
    have hsumdev : ((gray.map (fun p : ℕ => (p : ℝ))).map fun v =>
          (v - (gray.map (fun p : ℕ => (p : ℝ))).sum
            / (((gray.map (fun p : ℕ => (p : ℝ))).length : ℕ) : ℝ)) ^ 2).sum
        ≤ (((gray.map (fun p : ℕ => (p : ℝ))).length : ℕ) : ℝ) * 255 ^ 2 := by
      have h := List.sum_le_card_nsmul ((gray.map (fun p : ℕ => (p : ℝ))).map fun v =>
          (v - (gray.map (fun p : ℕ => (p : ℝ))).sum
            / (((gray.map (fun p : ℕ => (p : ℝ))).length : ℕ) : ℝ)) ^ 2) (255 ^ 2) ?_
      · rw [nsmul_eq_mul] at h
        refine h.trans (le_of_eq ?_)
        rw [List.length_map]
      · intro x hx
        obtain ⟨v, hv, rfl⟩ := List.mem_map.mp hx
        exact hdev v hv
    have hdev0 : 0 ≤ ((gray.map (fun p : ℕ => (p : ℝ))).map fun v =>
          (v - (gray.map (fun p : ℕ => (p : ℝ))).sum
            / (((gray.map (fun p : ℕ => (p : ℝ))).length : ℕ) : ℝ)) ^ 2).sum :=
      List.sum_nonneg fun x hx => by
        obtain ⟨v, hv, rfl⟩ := List.mem_map.mp hx
        exact sq_nonneg _
    simp only [extractBrightnessFeatures]
    refine ⟨_, _, _, rfl, ?_, ?_⟩
    · exact div_nonneg (div_nonneg hdev0 hnR.le) (by norm_num)
    · rw [div_le_one (by norm_num : (0 : ℝ) < 255 * 255), div_le_iff₀ hnR]
      nlinarith [hsumdev]

/-- Index-skipping through an append with a concrete prefix length. -/
lemma getD_skip (l1 rest : List ℝ) (n k m : ℕ) (hl : l1.length = k) (hm : n = k + m) :
    (l1 ++ rest).getD n 0 = rest.getD m 0 := by
  subst hm
  rw [List.getD_append_right l1 rest 0 (k + m) (by omega)]
  congr 1
  omega

/-- C10 (confirmed): on every fingerprint assembled by `combineFeatures`
from sub-vectors of the pipeline's fixed lengths, the value read at offset
`length - 3` is the 0.03-weighted brightness variance component, which is
in `[0, 0.03]`, so it fails the `> 0.8` test and passes the `< 0.4` test:
the inferred category is always `Fashion`, and the ranking boost can only
go to candidates whose category is "fashion" case-insensitively. -/
theorem spec_C10_always_fashion (ch ef tf sf dc : List ℝ) (c0 : ℝ)
    (r : Except String (List ℕ)) (category : String)
    (hch : ch.length = 1024) (hef : ef.length = 16) (htf : tf.length = 256)
    (hsf : sf.length = 7) (hdc : dc.length = 15) (hr : brightnessInputOK r) :
    inferCategoryFromFeatures (combineFeatures
        [("colorHistogram", ch), ("edgeFeatures", ef), ("textureFeatures", tf),
          ("shapeFeatures", sf), ("dominantColors", dc),
          ("brightness", extractBrightnessFeatures r), ("contrast", [c0])]) = some "Fashion"
    ∧ (categoryBoostApplies (combineFeatures
        [("colorHistogram", ch), ("edgeFeatures", ef), ("textureFeatures", tf),
          ("shapeFeatures", sf), ("dominantColors", dc),
          ("brightness", extractBrightnessFeatures r), ("contrast", [c0])]) category = true
        ↔ jsToLower category = "fashion") := by
  obtain ⟨b0, b1, b2, hb, hb0, hb1⟩ := brightness_components r hr
  have hlen : (combineFeatures
      [("colorHistogram", ch), ("edgeFeatures", ef), ("textureFeatures", tf),
        ("shapeFeatures", sf), ("dominantColors", dc),
        ("brightness", extractBrightnessFeatures r), ("contrast", [c0])]).length = 1322 := by
    rw [combineFeatures_eq_flatMap, hb]
    simp only [List.flatMap_cons, List.flatMap_nil, List.append_nil, List.length_append,
      List.length_map, hch, hef, htf, hsf, hdc, List.length_cons, List.length_nil]
  have hval : (combineFeatures
      [("colorHistogram", ch), ("edgeFeatures", ef), ("textureFeatures", tf),
        ("shapeFeatures", sf), ("dominantColors", dc),
        ("brightness", extractBrightnessFeatures r), ("contrast", [c0])]).getD 1319 0
      = b1 * weightFor "brightness" := by
    rw [combineFeatures_eq_flatMap, hb]
    simp only [List.flatMap_cons, List.flatMap_nil, List.append_nil]
    rw [getD_skip _ _ 1319 1024 295 (by rw [List.length_map, hch]) (by norm_num)]
    rw [getD_skip _ _ 295 16 279 (by rw [List.length_map, hef]) (by norm_num)]
    rw [getD_skip _ _ 279 256 23 (by rw [List.length_map, htf]) (by norm_num)]
    rw [getD_skip _ _ 23 7 16 (by rw [List.length_map, hsf]) (by norm_num)]
    rw [getD_skip _ _ 16 15 1 (by rw [List.length_map, hdc]) (by norm_num)]
    simp
  have hsmall : b1 * weightFor "brightness" ≤ 0.03 := by
    rw [weightFor_brightness]
    nlinarith
  have hnonneg : 0 ≤ b1 * weightFor "brightness" := by
    rw [weightFor_brightness]
    nlinarith
  have hinfer : inferCategoryFromFeatures (combineFeatures
      [("colorHistogram", ch), ("edgeFeatures", ef), ("textureFeatures", tf),
        ("shapeFeatures", sf), ("dominantColors", dc),
        ("brightness", extractBrightnessFeatures r), ("contrast", [c0])]) = some "Fashion" := by
    simp only [inferCategoryFromFeatures, hlen]
    rw [if_neg (by norm_num)]
    have hB : jsGetOr (combineFeatures
        [("colorHistogram", ch), ("edgeFeatures", ef), ("textureFeatures", tf),
          ("shapeFeatures", sf), ("dominantColors", dc),
          ("brightness", extractBrightnessFeatures r), ("contrast", [c0])])
        (((1322 : ℕ) : ℤ) - 3) = b1 * weightFor "brightness" := by
      rw [jsGetOr, if_pos (by norm_num)]
      have h3 : (((1322 : ℕ) : ℤ) - 3).toNat = 1319 := by decide
      rw [h3, hval]
    rw [hB]
    rw [if_neg (by rintro ⟨h1, h2⟩; nlinarith), if_pos (by nlinarith)]
  refine ⟨hinfer, ?_⟩
  simp only [categoryBoostApplies, hinfer]
  have htl : jsToLower "Fashion" = "fashion" := by decide
  rw [htl]
  exact beq_iff_eq

/-- Witness for C10 at all-zero sub-vectors with a failed brightness
resample. -/
theorem spec_C10_always_fashion_witness :
    inferCategoryFromFeatures (combineFeatures
        [("colorHistogram", List.replicate 1024 0), ("edgeFeatures", List.replicate 16 0),
          ("textureFeatures", List.replicate 256 0), ("shapeFeatures", List.replicate 7 0),
          ("dominantColors", List.replicate 15 0),
          ("brightness", extractBrightnessFeatures (Except.error "bad buffer")),
          ("contrast", [0])]) = some "Fashion" :=
  (spec_C10_always_fashion (List.replicate 1024 0) (List.replicate 16 0)
    (List.replicate 256 0) (List.replicate 7 0) (List.replicate 15 0) 0
    (Except.error "bad buffer") "Fashion" (List.length_replicate 1024 0)
    (List.length_replicate 16 0) (List.length_replicate 256 0) (List.length_replicate 7 0)
    (List.length_replicate 15 0) trivial).1

/-! ### Concrete evaluations of the scoring pipeline on the fixtures -/

lemma corr_singleton (x y : ℝ) : calculateCorrelationSimilarity [x] [y] = 0 := by
  simp only [calculateCorrelationSimilarity]
  rw [if_pos]
  simp [devSq]

lemma cos_one_one : calculateCosineSimilarity [1] [1] = 1 := by
  norm_num [calculateCosineSimilarity, normSq, dotProduct, Real.sqrt_one]

lemma cos_one_third : calculateCosineSimilarity [1] [1 / 3] = 1 := by
  unfold calculateCosineSimilarity
  rw [if_neg (by norm_num [normSq])]
  rw [show normSq [(1 : ℝ)] = 1 by norm_num [normSq],
    show normSq [(1 : ℝ) / 3] = (1 / 3) ^ 2 by norm_num [normSq],
    show dotProduct [(1 : ℝ)] [1 / 3] = 1 / 3 by norm_num [dotProduct],
    Real.sqrt_one, Real.sqrt_sq (by norm_num : (0 : ℝ) ≤ 1 / 3)]
  norm_num

lemma euc_one_one : calculateEuclideanSimilarity [1] [1] = 1 := by
  norm_num [calculateEuclideanSimilarity, squaredDiffSum]

lemma euc_one_third : calculateEuclideanSimilarity [1] [1 / 3] = 3 / 5 := by
  unfold calculateEuclideanSimilarity
  rw [show squaredDiffSum [(1 : ℝ)] [1 / 3] = (2 / 3) ^ 2 by norm_num [squaredDiffSum],
    Real.sqrt_sq (by norm_num : (0 : ℝ) ≤ 2 / 3)]
  norm_num

lemma adv_one_one : calculateAdvancedSimilarity (some [1]) (some [1]) = 0.8 := by
  simp only [calculateAdvancedSimilarity, if_true]
  rw [cos_one_one, euc_one_one, corr_singleton]
  unfold clamp01
  norm_num

lemma adv_one_third : calculateAdvancedSimilarity (some [1]) (some [1 / 3]) = 0.68 := by
  simp only [calculateAdvancedSimilarity, if_true]
  rw [cos_one_third, euc_one_third, corr_singleton]
  unfold clamp01
  norm_num

lemma infer_singleton_one : inferCategoryFromFeatures [(1 : ℝ)] = some "Fashion" := by
  simp only [inferCategoryFromFeatures]
  rw [if_neg (by norm_num)]
  have hB : jsGetOr [(1 : ℝ)] ((([(1 : ℝ)].length : ℕ) : ℤ) - 3) = 0 := by
    rw [jsGetOr, if_neg (by norm_num)]
  have hC : jsGetOr [(1 : ℝ)] ((([(1 : ℝ)].length : ℕ) : ℤ) - 1) = 1 := by
    rw [jsGetOr, if_pos (by norm_num)]
    norm_num
  rw [hB, hC]
  rw [if_neg (by norm_num), if_pos (by norm_num)]

lemma boost_electronics : categoryBoostApplies [(1 : ℝ)] "Electronics" = false := by
  simp only [categoryBoostApplies, infer_singleton_one]
  decide

lemma boost_fashion : categoryBoostApplies [(1 : ℝ)] "Fashion" = true := by
  simp only [categoryBoostApplies, infer_singleton_one]
  decide

lemma priceRel_fixtures :
    calculatePriceRelevance 100
      [Product.mk "a" [1] "Electronics" 100, Product.mk "b" [1 / 3] "Fashion" 100] = 1 := by
  norm_num [calculatePriceRelevance]

lemma simA_eval : (scoreEntry [1] [prodA, prodB] 0.1 prodA).similarity = 0.85 := by
  simp only [scoreEntry, prodA, prodB, adv_one_one, boost_electronics, priceRel_fixtures]
  norm_num

lemma cmA_eval : (scoreEntry [1] [prodA, prodB] 0.1 prodA).categoryMatch = false := by
  simp only [scoreEntry, prodA, infer_singleton_one]
  decide

lemma simB_eval : (scoreEntry [1] [prodA, prodB] 0.1 prodB).similarity = 0.83 := by
  simp only [scoreEntry, prodA, prodB, adv_one_third, boost_fashion, priceRel_fixtures]
  norm_num

lemma cmB_eval : (scoreEntry [1] [prodA, prodB] 0.1 prodB).categoryMatch = true := by
  simp only [scoreEntry, prodB, infer_singleton_one]
  decide

lemma rankCmp_fixtures :
    rankCmp (scoreEntry [1] [prodA, prodB] 0.1 prodA)
      (scoreEntry [1] [prodA, prodB] 0.1 prodB) = 1 := by
  unfold rankCmp
  rw [simA_eval, simB_eval, cmA_eval, cmB_eval]
  rw [if_neg ?_, if_pos (by decide)]
  · simp [cmVal]
  · rw [show (0.83 : ℝ) - 0.85 = -0.02 by norm_num, abs_neg,
      abs_of_nonneg (by norm_num : (0 : ℝ) ≤ 0.02)]
    norm_num

/-! ### Sortedness of the two sorts -/

lemma rankCmp_eq_of_gap {a b : RankedEntry} (h : 0.05 < |a.similarity - b.similarity|) :
    rankCmp a b = b.similarity - a.similarity := by
  unfold rankCmp
  rw [if_pos]
  rwa [abs_sub_comm]

lemma orderedInsert_gap_sorted (x : RankedEntry) :
    ∀ m : List RankedEntry,
      (∀ b ∈ m, 0.05 < |x.similarity - b.similarity|) →
      List.Sorted (fun a b : RankedEntry => b.similarity ≤ a.similarity) m →
      List.Sorted (fun a b : RankedEntry => b.similarity ≤ a.similarity)
        (@List.orderedInsert RankedEntry (fun a b => rankCmp a b ≤ 0)
          (fun a b => Real.decidableLE (rankCmp a b) 0) x m)
  | [], _, _ => List.sorted_singleton x
  | b :: m, hgap, hs => by
    simp only [List.orderedInsert]
    by_cases hxb : rankCmp x b ≤ 0
    · rw [if_pos hxb]
      have hxb2 := rankCmp_eq_of_gap (hgap b (List.mem_cons_self b m))
      refine List.Pairwise.cons ?_ hs
      intro y hy
      rcases List.mem_cons.mp hy with rfl | hy
      · linarith [hxb2 ▸ hxb]
      · have h1 : y.similarity ≤ b.similarity := (List.pairwise_cons.mp hs).1 y hy
        have h2 : b.similarity ≤ x.similarity := by linarith [hxb2 ▸ hxb]
        linarith
    · rw [if_neg hxb]
      have hxb2 := rankCmp_eq_of_gap (hgap b (List.mem_cons_self b m))
      have hbx : x.similarity ≤ b.similarity := by
        push_neg at hxb
        linarith [hxb2 ▸ hxb]
      refine List.Pairwise.cons ?_
        (orderedInsert_gap_sorted x m
          (fun c hc => hgap c (List.mem_cons_of_mem b hc)) hs.of_cons)
      intro y hy
      rcases (List.mem_orderedInsert _).mp hy with rfl | hy
      · exact hbx
      · exact (List.pairwise_cons.mp hs).1 y hy

lemma insertionSort_gap_sorted :
    ∀ l : List RankedEntry,
      List.Pairwise (fun a b : RankedEntry => 0.05 < |a.similarity - b.similarity|) l →
      List.Sorted (fun a b : RankedEntry => b.similarity ≤ a.similarity) (jsSort rankCmp l)
  | [], _ => List.sorted_nil
  | x :: xs, h => by
    obtain ⟨hx, hxs⟩ := List.pairwise_cons.mp h
    have ih := insertionSort_gap_sorted xs hxs
    simp only [jsSort, List.insertionSort] at ih ⊢
    refine orderedInsert_gap_sorted x _ ?_ ih
    intro b hb
    exact hx b ((List.perm_insertionSort _ xs).subset hb)

lemma orderedInsert_merged_sorted (x : MergedEntry) :
    ∀ m : List MergedEntry,
      List.Sorted (fun a b : MergedEntry => b.similarity ≤ a.similarity) m →
      List.Sorted (fun a b : MergedEntry => b.similarity ≤ a.similarity)
        (@List.orderedInsert MergedEntry (fun a b => b.similarity - a.similarity ≤ 0)
          (fun a b => Real.decidableLE (b.similarity - a.similarity) 0) x m)
  | [], _ => List.sorted_singleton x
  | b :: m, hs => by
    simp only [List.orderedInsert]
    by_cases hxb : b.similarity - x.similarity ≤ 0
    · rw [if_pos hxb]
      refine List.Pairwise.cons ?_ hs
      intro y hy
      rcases List.mem_cons.mp hy with rfl | hy
      · linarith
      · have h1 : y.similarity ≤ b.similarity := (List.pairwise_cons.mp hs).1 y hy
        linarith
    · rw [if_neg hxb]
      push_neg at hxb
      refine List.Pairwise.cons ?_ (orderedInsert_merged_sorted x m hs.of_cons)
      intro y hy
      rcases (List.mem_orderedInsert _).mp hy with rfl | hy
      · linarith
      · exact (List.pairwise_cons.mp hs).1 y hy

lemma jsSort_merged_sorted :
    ∀ l : List MergedEntry,
      List.Sorted (fun a b : MergedEntry => b.similarity ≤ a.similarity)
        (jsSort (fun a b => b.similarity - a.similarity) l)
  | [] => List.sorted_nil
  | x :: xs => by
    have ih := jsSort_merged_sorted xs
    simp only [jsSort, List.insertionSort] at ih ⊢
    exact orderedInsert_merged_sorted x _ ih

/-- C3 (corrected): every base-match list keeps only scores strictly above
the 0.15 floor and at most `limit` entries; it is descending by final
score whenever all pairwise score gaps exceed the 0.05 tie band (inside
the band, the category/price tie-breakers may put a lower score first);
the merged multi-strategy output is sorted descending by its
strategy-reweighted scores. -/
theorem spec_C3_ranking_shape :
    (∀ (up : List ℝ) (ps : List Product) (lim : ℕ) (boost : ℝ),
      ∀ e ∈ findAdvancedSimilarProducts up ps lim boost, 0.15 < e.similarity)
    ∧ (∀ (up : List ℝ) (ps : List Product) (lim : ℕ) (boost : ℝ),
        (findAdvancedSimilarProducts up ps lim boost).length ≤ lim)
    ∧ (∀ (up : List ℝ) (ps : List Product) (lim : ℕ) (boost : ℝ),
        List.Pairwise (fun a b : RankedEntry => 0.05 < |a.similarity - b.similarity|)
          (ps.map (scoreEntry up ps boost)) →
        List.Sorted (· ≥ ·)
          ((findAdvancedSimilarProducts up ps lim boost).map fun e => e.similarity))
    ∧ (∀ strategies : List StrategyResult,
        List.Sorted (· ≥ ·) ((combineSearchResults strategies).map fun e => e.similarity)) := by
  refine ⟨?_, ?_, ?_, ?_⟩
  · intro up ps lim boost e he
    simp only [findAdvancedSimilarProducts] at he
    exact of_decide_eq_true (List.mem_filter.mp he).2
  · intro up ps lim boost
    simp only [findAdvancedSimilarProducts]
    refine le_trans (List.length_filter_le _ _) ?_
    rw [List.length_take]
    exact min_le_left _ _
  · intro up ps lim boost hgap
    simp only [findAdvancedSimilarProducts]
    have h1 := insertionSort_gap_sorted (ps.map (scoreEntry up ps boost)) hgap
    have h2 := h1.sublist (List.take_sublist lim _)
    have h3 := h2.sublist
      (@List.filter_sublist RankedEntry (fun e => decide (0.15 < e.similarity)) _)
    exact List.Pairwise.map _ (fun a b hab => hab) h3
  · intro strategies
    simp only [combineSearchResults]
    exact List.Pairwise.map _ (fun a b hab => hab) (jsSort_merged_sorted _)

/-- Witness for C3: with a single candidate the tie-band hypothesis is
vacuous and the output is sorted. -/
theorem spec_C3_ranking_shape_witness :
    List.Sorted (· ≥ ·)
      ((findAdvancedSimilarProducts [1] [prodA] 5 0.1).map fun e => e.similarity) :=
  spec_C3_ranking_shape.2.2.1 [1] [prodA] 5 0.1 (by simp)

/-- Counterexample to C3 as stated: with the two fixtures the scores are
0.85 and 0.83 — a gap of 0.02, strictly inside the 0.05 tie band, so the
branch taken does not depend on rounding at the band's edge — and the
category-match tie-breaker puts the 0.83 entry first, so the returned
list is not descending by final score. -/
theorem spec_C3_counterexample :
    ¬ List.Sorted (· ≥ ·)
      ((findAdvancedSimilarProducts [1] [prodA, prodB] 10 0.1).map fun e => e.similarity) := by
  have hpA : decide (0.15 < (scoreEntry [1] [prodA, prodB] 0.1 prodA).similarity) = true := by
    simp only [simA_eval]
    exact decide_eq_true (by norm_num)
  have hpB : decide (0.15 < (scoreEntry [1] [prodA, prodB] 0.1 prodB).similarity) = true := by
    simp only [simB_eval]
    exact decide_eq_true (by norm_num)
  have hsort : jsSort rankCmp
      [scoreEntry [1] [prodA, prodB] 0.1 prodA, scoreEntry [1] [prodA, prodB] 0.1 prodB]
      = [scoreEntry [1] [prodA, prodB] 0.1 prodB, scoreEntry [1] [prodA, prodB] 0.1 prodA] := by
    simp only [jsSort, List.insertionSort, List.orderedInsert]
    rw [if_neg]
    rw [rankCmp_fixtures]
    norm_num
  have hfind : findAdvancedSimilarProducts [1] [prodA, prodB] 10 0.1
      = [scoreEntry [1] [prodA, prodB] 0.1 prodB, scoreEntry [1] [prodA, prodB] 0.1 prodA] := by
    simp only [findAdvancedSimilarProducts, List.map_cons, List.map_nil]
    rw [hsort]
    rw [List.take_of_length_le (by simp)]
    simp [List.filter_cons, hpA, hpB]
  rw [hfind]
  simp only [List.map_cons, List.map_nil, simA_eval, simB_eval]
  intro h
  have h1 := (List.pairwise_cons.mp h).1 0.85 (by simp)
  rw [ge_iff_le] at h1
  norm_num at h1

end VisionMatch
